import Mathlib

/-!
Verification of the spongecake action-resolution core (`spongecake/agent.py`
and `spongecake/desktop.py`) against its natural-language specification.

The Python source is shallowly embedded: each Python function that the
claims touch becomes a Lean definition with the same name; the external
collaborators (the OpenAI model service and the containerized desktop)
become explicit parameters (an oracle stream of responses, and a desktop
whose primitive executions are observed as an event trace and may raise at
a chosen call index).  `match`-style Python truthiness (`if messages:`,
`messages or None`) is translated explicitly.
-/

namespace Spongecake

/-- A safety check attached by the model to a response item
(`id`, `code`, `message`, echoed verbatim on acknowledgment). -/
structure SafetyCheck where
  id : String
  code : String
  message : String
deriving DecidableEq

/-- The `type` tag of an output item of a model response.  The source only
distinguishes `"message"` and `"computer_call"`; every other tag (e.g.
`"reasoning"`) behaves uniformly and is collapsed into `other`. -/
inductive ItemType where
  | message
  | computer_call
  | other
deriving DecidableEq

/-- An action descriptor proposed by the model, as dispatched by
`Agent.handle_model_action` (tag strings `click`, `scroll`, `keypress`,
`type`, `wait`, `screenshot`, and the unrecognized fall-through). -/
inductive ModelAction where
  | click (x y : Int) (button : String)
  | scroll (x y scroll_x scroll_y : Int)
  | keypress (keys : List String)
  | type_text (text : String)
  | wait
  | screenshot
  | unknown (raw : String)
deriving DecidableEq

/-- One item of `response.output`.  `pending_safety_checks` models the
attribute read by `getattr(item, "pending_safety_checks", None)` (absent
attribute = empty list).  `call_id` and `action` are only meaningful when
`type = computer_call`. -/
structure Item where
  type : ItemType
  pending_safety_checks : List SafetyCheck := []
  call_id : String := ""
  action : ModelAction := ModelAction.wait
deriving DecidableEq

/-- A model response: an identity (used to chain continuations) and its
output items. -/
structure Response where
  id : String
  output : List Item
deriving DecidableEq

/-- An input payload built by `Agent._build_input_dict` (the `action` paths
always call it with role `"user"` and no checks). -/
structure InputDict where
  role : String
  content : String
deriving DecidableEq

/-! ## Desktop environment model (`desktop.py`)

Each desktop primitive is a sequence of `exec`-style calls into the
container.  We observe those calls as an `EnvEvent` trace.  A `Desktop`
carries `failAt`: the index (within one dispatch) of the primitive call
that raises, if any — modelling a failing `docker exec` / screenshot
subprocess.  Once a call has raised, the exception propagates: no further
primitive calls of that Python method run. -/

/-- An observable environment primitive call. -/
inductive EnvEvent where
  | clickAt (x y : Int) (button : Nat)
  | mousemove (x y : Int)
  | clickButton (button : Nat)
  | keydownCtrl
  | keydownShift
  | keyupCtrl
  | keyupShift
  | keyReturn
  | keySpace
  | key (k : String)
  | typeText (t : String)
  | screenshotTaken
  | sleep (secs : Nat)
deriving DecidableEq

/-- The desktop collaborator: which primitive call (0-indexed, within one
dispatch) raises, and the base64 screenshot data it returns. -/
structure Desktop where
  failAt : Option Nat
  screenshotData : String
deriving DecidableEq

/-- Execution state threaded through one desktop method: the observed
trace, the number of primitive calls attempted, and whether an exception
has been raised (and is propagating). -/
structure EnvState where
  trace : List EnvEvent
  calls : Nat
  raised : Bool
deriving DecidableEq

/-- Attempt one primitive call.  If an exception is already propagating,
nothing runs; if this call is the failing one, it raises (the event is not
observed); otherwise the event is observed. -/
def execStep (d : Desktop) (e : EnvEvent) (s : EnvState) : EnvState :=
  if s.raised then s
  else if d.failAt = some s.calls then { s with calls := s.calls + 1, raised := true }
  else { trace := s.trace ++ [e], calls := s.calls + 1, raised := false }

/-- Python `str.upper()` (character-wise, as used on key tokens). -/
def pyUpper (s : String) : String := ⟨s.data.map Char.toUpper⟩

/-- Python `str.lower()` (character-wise, as used on key tokens and click
types). -/
def pyLower (s : String) : String := ⟨s.data.map Char.toLower⟩

/-- `Desktop.click`: `click_type_map = {"left":1,"middle":2,"wheel":2,"right":3}`
with default `1`; one `xdotool mousemove … click t` exec. -/
def click_type_map (b : String) : Nat :=
  if pyLower b = "left" then 1
  else if pyLower b = "middle" then 2
  else if pyLower b = "wheel" then 2
  else if pyLower b = "right" then 3
  else 1

/-- `Desktop.click`. -/
def Desktop.click (d : Desktop) (x y : Int) (click_type : String) (s : EnvState) : EnvState :=
  execStep d (EnvEvent.clickAt x y (click_type_map click_type)) s

/-- `Desktop.scroll`: one mousemove exec, then — per nonzero axis — a fixed
three `xdotool click <button>` pulses (the computed `clicks` variable is
unused in the source; the loop bound is the literal 3). -/
def Desktop.scroll (d : Desktop) (x y scroll_x scroll_y : Int) (s : EnvState) : EnvState :=
  let s1 := execStep d (EnvEvent.mousemove x y) s
  let s2 :=
    if scroll_y ≠ 0 then
      let button : Nat := if scroll_y < 0 then 4 else 5
      execStep d (EnvEvent.clickButton button)
        (execStep d (EnvEvent.clickButton button)
          (execStep d (EnvEvent.clickButton button) s1))
    else s1
  if scroll_x ≠ 0 then
    let button : Nat := if scroll_x < 0 then 6 else 7
    execStep d (EnvEvent.clickButton button)
      (execStep d (EnvEvent.clickButton button)
        (execStep d (EnvEvent.clickButton button) s2))
  else s2

/-- The per-key loop body of `Desktop.keypress`, carrying the
`ctrl_pressed` / `shift_pressed` flags. -/
def keypressGo (d : Desktop) : List String → Bool → Bool → EnvState → EnvState × Bool × Bool
  | [], ctrl, shift, s => (s, ctrl, shift)
  | k :: rest, ctrl, shift, s =>
    if pyUpper k = "CTRL" then
      keypressGo d rest true shift (execStep d EnvEvent.keydownCtrl s)
    else if pyUpper k = "SHIFT" then
      keypressGo d rest ctrl true (execStep d EnvEvent.keydownShift s)
    else if pyLower k = "enter" then
      keypressGo d rest ctrl shift (execStep d EnvEvent.keyReturn s)
    else if pyLower k = "space" then
      keypressGo d rest ctrl shift (execStep d EnvEvent.keySpace s)
    else
      keypressGo d rest ctrl shift (execStep d (EnvEvent.key (pyLower k)) s)

/-- `Desktop.keypress`: process the key sequence in order, holding
`CTRL`/`SHIFT` down when encountered and releasing held modifiers after
the whole sequence. -/
def Desktop.keypress (d : Desktop) (keys : List String) (s : EnvState) : EnvState :=
  let r := keypressGo d keys false false s
  let s1 := if r.2.1 then execStep d EnvEvent.keyupCtrl r.1 else r.1
  if r.2.2 then execStep d EnvEvent.keyupShift s1 else s1

/-- `Desktop.type_text`: one `xdotool type` exec. -/
def Desktop.type_text (d : Desktop) (text : String) (s : EnvState) : EnvState :=
  execStep d (EnvEvent.typeText text) s

/-- `Desktop.get_screenshot`: one subprocess call; raises on a nonzero
return code, otherwise returns the base64 screenshot string. -/
def Desktop.get_screenshot (d : Desktop) (s : EnvState) : Option String × EnvState :=
  let s1 := execStep d EnvEvent.screenshotTaken s
  if s1.raised then (none, s1) else (some d.screenshotData, s1)

/-- `Agent.handle_model_action`: raises if no desktop is bound, otherwise
dispatches on the action tag inside a `try`/`except` that catches and
swallows every exception (the function then returns `None`).  The result
carries the returned screenshot bytes (screenshot tag only, and only when
nothing raised) and the observed environment trace. -/
def handle_model_action (desktop : Option Desktop) (action : ModelAction) :
    Except String (Option String × List EnvEvent) :=
  match desktop with
  | none => Except.error "No desktop has been set for this agent."
  | some d =>
    let s0 : EnvState := ⟨[], 0, false⟩
    match action with
    | ModelAction.click x y button =>
      Except.ok (none, (Desktop.click d x y button s0).trace)
    | ModelAction.scroll x y sx sy =>
      Except.ok (none, (Desktop.scroll d x y sx sy s0).trace)
    | ModelAction.keypress keys =>
      Except.ok (none, (Desktop.keypress d keys s0).trace)
    | ModelAction.type_text t =>
      Except.ok (none, (Desktop.type_text d t s0).trace)
    | ModelAction.wait =>
      Except.ok (none, [EnvEvent.sleep 2])
    | ModelAction.screenshot =>
      let r := Desktop.get_screenshot d s0
      Except.ok (r.1, r.2.trace)
    | ModelAction.unknown _ =>
      Except.ok (none, [])

/-- The environment trace observed when the agent loop dispatches an
action (the loop ignores the dispatcher's return value). -/
def dispatchTrace (d : Desktop) (a : ModelAction) : List EnvEvent :=
  match handle_model_action (some d) a with
  | Except.ok r => r.2
  | Except.error _ => []

/-- `isOk` discriminator for `Except` (true when no exception escaped). -/
def exceptIsOk : Except String (Option String × List EnvEvent) → Bool
  | Except.ok _ => true
  | Except.error _ => false

/-! ## Model service and the computer-use loop (`agent.py`)

The OpenAI responses endpoint is modelled as an oracle stream: the n-th
`responses.create` call of a run returns `oracle n`.  (The spec treats the
model service as an external collaborator whose behaviour is arbitrary;
its retry/rate-limit behaviour is out of scope.) -/

/-- The remote model service: an oracle of responses plus the index of the
next call. -/
structure World where
  oracle : Nat → Response
  idx : Nat

/-- One `responses.create` call: consume the next oracle response. -/
def World.next (w : World) : Response × World :=
  (w.oracle w.idx, ⟨w.oracle, w.idx + 1⟩)

/-- `[item for item in response.output if item.type == "message"]`. -/
def messagesOf (r : Response) : List Item :=
  r.output.filter (fun it => it.type = ItemType.message)

/-- `[item for item in response.output if item.type == "computer_call"]`. -/
def computerCallsOf (r : Response) : List Item :=
  r.output.filter (fun it => it.type = ItemType.computer_call)

/-- The `all_safety_checks` accumulation over all items of the response
(`getattr(item, "pending_safety_checks", None)`, extended when truthy —
identical to concatenation since empty lists contribute nothing). -/
def allSafetyChecksOf (r : Response) : List SafetyCheck :=
  r.output.foldl (fun acc it => acc ++ it.pending_safety_checks) []

/-- Python's `xs or None`: `None` for an empty list, the list otherwise. -/
def orNone (xs : List α) : Option (List α) :=
  if xs.isEmpty then none else some xs

/-- The quadruple returned by `Agent.computer_use_loop`:
`(response, messages, safety_checks, pending_call)`. -/
structure LoopRes where
  response : Response
  messages : Option (List Item)
  checks : Option (List SafetyCheck)
  pending_call : Option Item

/-- `Agent.computer_use_loop`.  The source recurses unboundedly while the
response holds an executable (check-free) call; the embedding spends one
unit of fuel per recursion and returns `none` on exhaustion (modelling
divergence).  Alongside the loop result we thread the world (model
service) and the environment trace observed so far. -/
def computer_use_loop (d : Desktop) :
    Nat → World → List EnvEvent → Response → Option (LoopRes × World × List EnvEvent)
  | 0, _, _, _ => none
  | fuel + 1, w, tr, response =>
    let messages := messagesOf response
    let computer_call := (computerCallsOf response).head?
    let all_safety_checks := allSafetyChecksOf response
    match computer_call with
    | some cc =>
      if all_safety_checks.isEmpty then
        -- a computer_call without safety checks: execute it, take a
        -- screenshot, send it back as computer_call_output, recurse
        let tr1 := tr ++ dispatchTrace d cc.action ++ [EnvEvent.screenshotTaken]
        let next := w.next
        computer_use_loop d fuel next.2 tr1 next.1
      else
        -- a call with checks: return immediately for acknowledgment
        some (⟨response, orNone messages, some all_safety_checks, some cc⟩, w, tr)
    | none =>
      if messages.isEmpty && all_safety_checks.isEmpty then
        -- no calls, no messages, no checks: done
        some (⟨response, none, none, none⟩, w, tr)
      else
        -- messages or orphaned checks: return them to the caller
        some (⟨response, orNone messages, orNone all_safety_checks, none⟩, w, tr)

/-! ## Conversation state and the action controller (`Agent`) -/

/-- `AgentStatus` (agent.py). -/
inductive AgentStatus where
  | COMPLETE
  | NEEDS_INPUT
  | NEEDS_SAFETY_CHECK
  | ERROR
deriving DecidableEq

/-- The `data` component returned by `Agent.action`: a response object
(COMPLETE), a list of messages (NEEDS_INPUT), the dict
`{"safety_checks": …, "pending_call": …}` (NEEDS_SAFETY_CHECK), or an
error string (ERROR). -/
inductive AgentData where
  | resp (r : Response)
  | msgs (ms : List Item)
  | scDict (safety_checks : List SafetyCheck) (pending_call : Item)
  | err (e : String)
deriving DecidableEq

/-- The mutable fields of an `Agent` instance (plus its bound desktop). -/
structure AgentState where
  desktop : Option Desktop
  response_history : List Response
  input_history : List InputDict
  current_response : Option Response
  pending_call : Option Item
  pending_safety_checks : List SafetyCheck
  needs_input : List Item
  error : Option String
deriving DecidableEq

/-- A freshly constructed (or `reset_state`) agent bound to `d`. -/
def Agent.init (d : Option Desktop) : AgentState :=
  ⟨d, [], [], none, none, [], [], none⟩

/-- The full observable outcome of one `Agent.action` invocation: the
returned `(status, data)` pair, the agent state afterwards, the advanced
model-service world, and the environment trace of the invocation. -/
structure ActionResult where
  status : AgentStatus
  data : AgentData
  state : AgentState
  world : World
  trace : List EnvEvent

/-- The tail of `Agent._process_response` after the
`if pending_call and checks:` test has failed: `if messages: … NEEDS_INPUT`
else `COMPLETE`. -/
def process_after_call (lr : LoopRes) (s1 : AgentState) (w : World) (tr : List EnvEvent) :
    Option ActionResult :=
  match lr.messages with
  | some msgs =>
    if msgs.isEmpty then some ⟨AgentStatus.COMPLETE, AgentData.resp lr.response, s1, w, tr⟩
    else some ⟨AgentStatus.NEEDS_INPUT, AgentData.msgs msgs,
               { s1 with needs_input := msgs }, w, tr⟩
  | none => some ⟨AgentStatus.COMPLETE, AgentData.resp lr.response, s1, w, tr⟩

/-- `Agent._process_response`: run the loop, record the final response as
current, then branch on the loop's pending call/checks (Python truthiness:
a present-but-empty checks list is falsy) and on the messages. -/
def process_response (d : Desktop) (fuel : Nat) (w : World) (s : AgentState)
    (tr : List EnvEvent) (response : Response) : Option ActionResult :=
  match computer_use_loop d fuel w tr response with
  | none => none
  | some (lr, w', tr') =>
    let s1 := { s with current_response := some lr.response }
    match lr.pending_call, lr.checks with
    | some pc, some checks =>
      if checks.isEmpty then process_after_call lr s1 w' tr'
      else some ⟨AgentStatus.NEEDS_SAFETY_CHECK, AgentData.scDict checks pc,
                 { s1 with pending_call := some pc, pending_safety_checks := checks },
                 w', tr'⟩
    | some _, none => process_after_call lr s1 w' tr'
    | none, _ => process_after_call lr s1 w' tr'

/-- Error message of `Agent.action` when nothing matched. -/
def noActionMsg : String :=
  "No valid action to take. Provide input text or acknowledge safety checks."

/-- Error message of `Agent.action` when no desktop is bound. -/
def noDesktopMsg : String := "No desktop has been set for this agent."

/-- Error message of `Agent._handle_acknowledged_safety_checks`. -/
def ackErrMsg : String := "No pending call or safety checks to acknowledge."

/-- Error message of `Agent._handle_user_input` without a conversation. -/
def noConversationMsg : String := "No active conversation to continue."

/-- `Agent._handle_new_command`: reset the pending fields (histories are
kept), record the input, create the first response of a fresh
conversation, record it, and process it. -/
def handle_new_command (d : Desktop) (fuel : Nat) (w : World) (s : AgentState)
    (command_text : String) : Option ActionResult :=
  let s1 := { s with pending_call := none, pending_safety_checks := [], needs_input := [] }
  let s2 := { s1 with input_history := s1.input_history ++ [(⟨"user", command_text⟩ : InputDict)] }
  let next := w.next
  let s3 := { s2 with response_history := s2.response_history ++ [next.1],
                      current_response := some next.1 }
  process_response d fuel next.2 s3 [] next.1

/-- `Agent._handle_user_input`: error without an active conversation;
otherwise record the input, continue the conversation, clear
`needs_input`, and process the new response. -/
def handle_user_input (d : Desktop) (fuel : Nat) (w : World) (s : AgentState)
    (input_text : String) : Option ActionResult :=
  match s.current_response with
  | none =>
    some ⟨AgentStatus.ERROR, AgentData.err noConversationMsg,
          { s with error := some noConversationMsg }, w, []⟩
  | some _ =>
    let s1 := { s with input_history := s.input_history ++ [(⟨"user", input_text⟩ : InputDict)] }
    let next := w.next
    let s2 := { s1 with response_history := s1.response_history ++ [next.1],
                        current_response := some next.1 }
    let s3 := { s2 with needs_input := [] }
    process_response d fuel next.2 s3 [] next.1

/-- `Agent._execute_and_continue_call`: execute the pending call, take a
screenshot, send the output (with the acknowledged checks echoed) as a
continuation, and record the new response as current. -/
def execute_and_continue_call (d : Desktop) (w : World) (s : AgentState) (pc : Item) :
    Response × World × AgentState × List EnvEvent :=
  let tr := dispatchTrace d pc.action ++ [EnvEvent.screenshotTaken]
  let next := w.next
  let s1 := { s with response_history := s.response_history ++ [next.1],
                     current_response := some next.1 }
  (next.1, next.2, s1, tr)

/-- `Agent._handle_acknowledged_safety_checks`: error unless a current
response, a pending call and nonempty pending checks all exist; otherwise
execute-and-continue, clear the pending call and checks, and process the
new response. -/
def handle_acknowledged_safety_checks (d : Desktop) (fuel : Nat) (w : World)
    (s : AgentState) : Option ActionResult :=
  match s.current_response, s.pending_call with
  | some _, some pc =>
    if s.pending_safety_checks.isEmpty then
      some ⟨AgentStatus.ERROR, AgentData.err ackErrMsg,
            { s with error := some ackErrMsg }, w, []⟩
    else
      let r := execute_and_continue_call d w s pc
      let s2 := { r.2.2.1 with pending_call := none, pending_safety_checks := [] }
      process_response d fuel r.2.1 s2 r.2.2.2 r.1
  | _, _ =>
    some ⟨AgentStatus.ERROR, AgentData.err ackErrMsg,
          { s with error := some ackErrMsg }, w, []⟩

/-- `Agent.action`: the public entry point.  Case 1: acknowledged checks
with a pending call.  Case 2: user input while input is awaited.  Case 3:
a brand-new command.  Otherwise ERROR.  (The `try`/`except` around the
cases concerns model-service/transport failures; the collaborators are
modelled as reliable here, per the spec's external-interface assumptions.) -/
def agent_action (fuel : Nat) (w : World) (s : AgentState)
    (input_text : Option String) (acknowledged_safety_checks : Bool) :
    Option ActionResult :=
  match s.desktop with
  | none =>
    some ⟨AgentStatus.ERROR, AgentData.err noDesktopMsg,
          { s with error := some noDesktopMsg }, w, []⟩
  | some d =>
    if acknowledged_safety_checks && s.pending_call.isSome then
      handle_acknowledged_safety_checks d fuel w s
    else
      match input_text with
      | some t =>
        if s.needs_input.isEmpty then handle_new_command d fuel w s t
        else handle_user_input d fuel w s t
      | none =>
        some ⟨AgentStatus.ERROR, AgentData.err noActionMsg,
              { s with error := some noActionMsg }, w, []⟩

/-! ## Legacy compatibility shim (`desktop.py`)

`Desktop.action_legacy` translates the pre-refactor parameter set onto
`Desktop.action` and translates the four-way status back into the old
dict shape.  `Desktop.action`, when called with all-keyword new-style
arguments (the way `action_legacy` calls it at desktop.py:510-515 — no
old-style keys in `kwargs`, a bool `acknowledged_safety_checks`), skips
the old-style detection at desktop.py:594-616 and reaches the delegation
`agent.action(input_text=…, acknowledged_safety_checks=…,
ignore_safety_and_input=…, complete_handler=…, needs_input_handler=…,
needs_safety_check_handler=…, error_handler=…, tools=…, function_map=…)`
at desktop.py:619-629.  In this source tree `Agent.action` (agent.py:263)
is `def action(self, input_text=None, acknowledged_safety_checks=False)`:
it accepts none of the extra keywords, so Python raises `TypeError` at
the call site — before the callee body and outside its `try`/`except` —
and nothing catches it on the way out of `action_legacy`.  The embedding
models Python's keyword-arity check explicitly.

Python values of heterogeneous type flowing through the old dict are
modelled by `PyVal`; a raised-and-propagating `TypeError` by
`PyResult.typeError`. -/

/-- The outcome of a Python call: a returned value, or a `TypeError`
raised at the call site and propagating. -/
inductive PyResult (α : Type) where
  | val (a : α)
  | typeError (m : String)

/-- A Python value as stored in the old-style result dict. -/
inductive PyVal where
  | pynone
  | pystr (s : String)
  | pychecks (cs : List SafetyCheck)
  | pycall (c : Item)
  | pyresp (r : Response)
  | pyitems (ms : List Item)
  | pydict (safety_checks : List SafetyCheck) (pending_call : Item)
deriving DecidableEq

/-- Injection of the new API's `data` payload into a Python value
(the NEEDS_SAFETY_CHECK payload is the two-key dict built in
`Agent._process_response`). -/
def pyOfData : AgentData → PyVal
  | AgentData.resp r => PyVal.pyresp r
  | AgentData.msgs ms => PyVal.pyitems ms
  | AgentData.scDict cs c => PyVal.pydict cs c
  | AgentData.err e => PyVal.pystr e

/-- The old-style response dict returned by `Desktop.action_legacy`
(`error` key present only in the ERROR branch). -/
structure LegacyResult where
  result : PyVal
  needs_input : PyVal
  safety_checks : PyVal
  pending_call : PyVal
  error : Option PyVal
deriving DecidableEq

/-- Python tuple-unpacking `a, b = data` applied to the new API's
NEEDS_SAFETY_CHECK payload.  The payload is the dict
`{"safety_checks": …, "pending_call": …}`; iterating a dict yields its
keys in insertion order, so the unpack binds the two key strings.
Unpacking any other payload shape raises (modelled as `none`). -/
def tupleUnpackData : AgentData → Option (PyVal × PyVal)
  | AgentData.scDict _ _ => some (PyVal.pystr "safety_checks", PyVal.pystr "pending_call")
  | _ => none

/-- The keyword parameters accepted by the src `Agent.action`
(agent.py:263: `def action(self, input_text=None,
acknowledged_safety_checks=False)`). -/
def agentActionAcceptedParams : List String :=
  ["input_text", "acknowledged_safety_checks"]

/-- The keyword arguments `Desktop.action` forwards to `agent.action` at
desktop.py:619-629. -/
def desktopForwardedKwargs : List String :=
  ["input_text", "acknowledged_safety_checks", "ignore_safety_and_input",
   "complete_handler", "needs_input_handler", "needs_safety_check_handler",
   "error_handler", "tools", "function_map"]

/-- The first forwarded keyword the callee does not accept, if any: for
it Python raises `TypeError` before the callee body runs. -/
def firstUnexpectedKwarg : Option String :=
  (desktopForwardedKwargs.filter
    (fun k => !(agentActionAcceptedParams.contains k))).head?

/-- The `TypeError` message (modelled without Python's quote characters
around the keyword name). -/
def unexpectedKwargMsg (k : String) : String :=
  "action() got an unexpected keyword argument " ++ k

/-- `Desktop.action` as invoked by `action_legacy`: the old-style kwargs
(`input`, `user_input`, `safety_checks`, `pending_call`) are absent and
`acknowledged_safety_checks` is a bool, so the old-style detection at
desktop.py:594-616 does not fire and the method reaches the delegation to
`agent.action` at desktop.py:619-629.  Python's keyword-arity check runs
first: a forwarded keyword the src `Agent.action` does not accept raises
`TypeError` at the call site; only if every keyword were accepted would
`Agent.action` (embedded as `agent_action`) run. -/
def desktop_action_from_legacy (fuel : Nat) (w : World) (s : AgentState)
    (input_text : Option String) (acknowledged_safety_checks : Bool) :
    PyResult (Option ActionResult) :=
  match firstUnexpectedKwarg with
  | some k => PyResult.typeError (unexpectedKwargMsg k)
  | none => PyResult.val (agent_action fuel w s input_text acknowledged_safety_checks)

/-- `Desktop.action_legacy` (desktop.py:487-548): translate the old
arguments into new-style ones (`input_text := user_input if user_input
else input`, `acknowledged_safety_checks := bool(safety_checks)`), call
`self.action(...)`, and — were that call to return — convert the
`(status, data)` pair back into the old dict.  With the src `Agent.action`
signature the delegation raises `TypeError` first and `action_legacy` has
no handler, so the translation arms below (including the dict
tuple-unpack at desktop.py:534) are dead code in this source tree; they
are embedded nonetheless, faithfully.  `PyResult.typeError` models the
propagating exception; `PyResult.val none` models divergence of the inner
loop or the tuple-unpack raising. -/
def action_legacy (fuel : Nat) (w : World) (s : AgentState)
    (input : Option String) (user_input : Option String)
    (safety_checks : Option (List SafetyCheck)) (pending_call : Option Item) :
    PyResult (Option (LegacyResult × AgentState × World × List EnvEvent)) :=
  let _ := pending_call
  let input_text : Option String :=
    match user_input with
    | some u => if u.isEmpty then input else some u
    | none => input
  let acknowledged : Bool :=
    match safety_checks with
    | some cs => !cs.isEmpty
    | none => false
  match desktop_action_from_legacy fuel w s input_text acknowledged with
  | PyResult.typeError m => PyResult.typeError m
  | PyResult.val none => PyResult.val none
  | PyResult.val (some res) =>
    match res.status with
    | AgentStatus.COMPLETE =>
      PyResult.val (some
        (⟨pyOfData res.data, PyVal.pyitems [], PyVal.pychecks [], PyVal.pynone, none⟩,
         res.state, res.world, res.trace))
    | AgentStatus.NEEDS_INPUT =>
      PyResult.val (some
        (⟨PyVal.pynone, pyOfData res.data, PyVal.pychecks [], PyVal.pynone, none⟩,
         res.state, res.world, res.trace))
    | AgentStatus.NEEDS_SAFETY_CHECK =>
      match tupleUnpackData res.data with
      | none => PyResult.val none
      | some p =>
        PyResult.val (some
          (⟨PyVal.pynone, PyVal.pyitems [], p.1, p.2, none⟩,
           res.state, res.world, res.trace))
    | AgentStatus.ERROR =>
      PyResult.val (some
        (⟨PyVal.pynone, PyVal.pyitems [], PyVal.pychecks [], PyVal.pynone,
          some (pyOfData res.data)⟩,
         res.state, res.world, res.trace))

/-! ## Python list aliasing model (introspection accessors, `agent.py`)

The accessors `response_history`, `input_history`, `pending_safety_checks`
and `needs_input` return `self._field.copy()` (the latter two return a
fresh `[]` when the field is empty).  To make the aliasing claim
meaningful, Python list objects are modelled by a heap: an address is an
index into a list of cells, and each cell holds the element references of
one list object.  `copy()` allocates a fresh cell holding the same
element references. -/

/-- The heap of Python list objects: address ↦ element references. -/
abbrev PyListHeap := List (List Nat)

/-- Read the list object at an address (unallocated reads as empty). -/
def readListObj (h : PyListHeap) (a : Nat) : List Nat := h.getD a []

/-- In-place mutation of the list object at an address (e.g. `append`,
`clear`, item assignment by the caller). -/
def writeListObj (h : PyListHeap) (a : Nat) (v : List Nat) : PyListHeap := h.set a v

/-- `list.copy()`: allocate a fresh cell holding the same element
references; returns the fresh address. -/
def listCopyAlloc (h : PyListHeap) (a : Nat) : Nat × PyListHeap :=
  (h.length, h ++ [readListObj h a])

/-- The addresses of the four internal lists of one `Agent` instance. -/
structure AgentListRefs where
  response_history_ref : Nat
  input_history_ref : Nat
  pending_safety_checks_ref : Nat
  needs_input_ref : Nat

/-- The `response_history` property: `self._response_history.copy()`. -/
def response_history_read (h : PyListHeap) (ag : AgentListRefs) : Nat × PyListHeap :=
  listCopyAlloc h ag.response_history_ref

/-- The `input_history` property: `self._input_history.copy()`. -/
def input_history_read (h : PyListHeap) (ag : AgentListRefs) : Nat × PyListHeap :=
  listCopyAlloc h ag.input_history_ref

/-- The `pending_safety_checks` property:
`self._pending_safety_checks.copy() if self._pending_safety_checks else []`
(both branches allocate a fresh list object). -/
def pending_safety_checks_read (h : PyListHeap) (ag : AgentListRefs) : Nat × PyListHeap :=
  if (readListObj h ag.pending_safety_checks_ref).isEmpty then (h.length, h ++ [[]])
  else listCopyAlloc h ag.pending_safety_checks_ref

/-- The `needs_input` property:
`self._needs_input.copy() if self._needs_input else []`. -/
def needs_input_read (h : PyListHeap) (ag : AgentListRefs) : Nat × PyListHeap :=
  if (readListObj h ag.needs_input_ref).isEmpty then (h.length, h ++ [[]])
  else listCopyAlloc h ag.needs_input_ref

/-! ## Concrete fixtures for witnesses and counterexamples -/

/-- A desktop whose primitives never fail and whose screenshots read
`"IMG"`. -/
def d0 : Desktop := ⟨none, "IMG"⟩

/-- The safety check of the spec's walkthrough scenario. -/
def check1 : SafetyCheck := ⟨"c1", "risky", "may delete data"⟩

/-- A computer_call item carrying `check1`. -/
def callItem1 : Item :=
  ⟨ItemType.computer_call, [check1], "call_1", ModelAction.click 1 2 "left"⟩

/-- A response proposing one call with one attached safety check. -/
def respSC : Response := ⟨"r1", [callItem1]⟩

/-- A response with no call and no message but one orphaned safety check
(attached to an item of another type, e.g. a reasoning item). -/
def respOrphan : Response :=
  ⟨"r2", [⟨ItemType.other, [check1], "", ModelAction.wait⟩]⟩

/-- A terminal response: no calls, no messages, no checks. -/
def respT : Response := ⟨"r0", []⟩

/-- A previously returned response, populating a prior conversation. -/
def respPrev : Response := ⟨"rp", []⟩

/-- A model service that always answers with the terminal response. -/
def wT : World := ⟨fun _ => respT, 0⟩

/-- A model service that always answers with the safety-check response. -/
def wSC : World := ⟨fun _ => respSC, 0⟩

/-- A model service that always answers with the orphaned-check response. -/
def wOrphan : World := ⟨fun _ => respOrphan, 0⟩

/-- A fresh agent bound to `d0`. -/
def sInit : AgentState := Agent.init (some d0)

/-- An agent carrying history from a previously completed conversation. -/
def sPrior : AgentState :=
  { Agent.init (some d0) with response_history := [respPrev], current_response := some respPrev }

/-! ## Claims -/

/-- C7: with a desktop bound, `handle_model_action` never propagates an
exception raised while executing an environment primitive — every
dispatch, whatever the desktop's failure behaviour, returns normally
(`Except.ok`) — and an unrecognized action tag is a logged no-op: it
returns normally with no environment call. -/
theorem dispatch_never_propagates (d : Desktop) (a : ModelAction) (raw : String) :
    exceptIsOk (handle_model_action (some d) a) = true ∧
    handle_model_action (some d) (ModelAction.unknown raw) = Except.ok (none, []) := by
  refine ⟨?_, rfl⟩
  cases a <;> rfl

/-- C8 counterexample: dispatching a `screenshot` action is not a no-op —
on the concrete desktop `d0` it performs a `get_screenshot` environment
call (the trace is the nonempty `[screenshotTaken]`) and returns the
screenshot bytes (`some "IMG"`, not nothing). -/
theorem screenshot_dispatch_counterexample :
    handle_model_action (some d0) ModelAction.screenshot =
      Except.ok (some "IMG", [EnvEvent.screenshotTaken]) ∧
    (some "IMG" : Option String) ≠ none ∧
    ([EnvEvent.screenshotTaken] : List EnvEvent) ≠ [] := by
  refine ⟨rfl, ?_, ?_⟩ <;> decide

/-- C8 amended: dispatching a `screenshot` action performs exactly one
`get_screenshot` environment call and returns its base64 bytes (when the
primitive does not fail). -/
theorem screenshot_dispatch_amended (d : Desktop) (h : d.failAt = none) :
    handle_model_action (some d) ModelAction.screenshot =
      Except.ok (some d.screenshotData, [EnvEvent.screenshotTaken]) := by
  obtain ⟨f, sd⟩ := d
  replace h : f = none := h
  subst h
  rfl

/-- C8 amended, witness at the concrete desktop `d0`. -/
theorem screenshot_dispatch_amended_witness :
    handle_model_action (some d0) ModelAction.screenshot =
      Except.ok (some d0.screenshotData, [EnvEvent.screenshotTaken]) :=
  screenshot_dispatch_amended d0 rfl

/-- C9: executing a keypress whose key sequence is `["CTRL","A"]` makes
the environment observe exactly three events, once each and in order:
ctrl held down, key "a" pressed, ctrl released. -/
theorem keypress_ctrl_a_trace (d : Desktop) (h : d.failAt = none) :
    (Desktop.keypress d ["CTRL", "A"] ⟨[], 0, false⟩).trace =
      [EnvEvent.keydownCtrl, EnvEvent.key "a", EnvEvent.keyupCtrl] := by
  obtain ⟨f, sd⟩ := d
  replace h : f = none := h
  subst h
  rfl

/-- C9 witness at the concrete desktop `d0`. -/
theorem keypress_ctrl_a_trace_witness :
    (Desktop.keypress d0 ["CTRL", "A"] ⟨[], 0, false⟩).trace =
      [EnvEvent.keydownCtrl, EnvEvent.key "a", EnvEvent.keyupCtrl] :=
  keypress_ctrl_a_trace d0 rfl

/-- C1: for every model response containing at least one computer_call
item and at least one safety check attached to any item, the controller
classifies it as needing a safety acknowledgment: it stores and returns
`NEEDS_SAFETY_CHECK` with the checks and the pending call — the pending
call being the first computer_call of the response — and never executes
the call in that turn (the model-service world and the environment trace
are returned unchanged). -/
theorem needs_safety_check_classification
    (d : Desktop) (fuel : Nat) (w : World) (s : AgentState) (tr : List EnvEvent)
    (resp : Response) (c : Item) (rest : List Item)
    (sc : SafetyCheck) (scs : List SafetyCheck)
    (hc : computerCallsOf resp = c :: rest)
    (hs : allSafetyChecksOf resp = sc :: scs) :
    process_response d (fuel + 1) w s tr resp =
      some ⟨AgentStatus.NEEDS_SAFETY_CHECK,
            AgentData.scDict (sc :: scs) c,
            { s with current_response := some resp,
                     pending_call := some c,
                     pending_safety_checks := sc :: scs },
            w, tr⟩ := by
  simp [process_response, computer_use_loop, hc, hs]

/-- C1 witness: a concrete response with one click call carrying one
safety check is classified `NEEDS_SAFETY_CHECK`, the check and the call
are stored and returned, and nothing is executed. -/
theorem needs_safety_check_classification_witness :
    computerCallsOf respSC = callItem1 :: [] ∧
    allSafetyChecksOf respSC = check1 :: [] ∧
    process_response d0 1 wT sInit [] respSC =
      some ⟨AgentStatus.NEEDS_SAFETY_CHECK,
            AgentData.scDict [check1] callItem1,
            { sInit with current_response := some respSC,
                         pending_call := some callItem1,
                         pending_safety_checks := [check1] },
            wT, []⟩ :=
  ⟨rfl, rfl,
   needs_safety_check_classification d0 0 wT sInit [] respSC callItem1 [] check1 [] rfl rfl⟩

/-- C2 counterexample: on a concrete response with no computer_call, no
message items, and one orphaned safety check, the controller returns
status `COMPLETE` — not `NEEDS_INPUT` as the claim states. -/
theorem orphaned_checks_counterexample :
    process_response d0 1 wOrphan sInit [] respOrphan =
      some ⟨AgentStatus.COMPLETE, AgentData.resp respOrphan,
            { sInit with current_response := some respOrphan }, wOrphan, []⟩ ∧
    AgentStatus.COMPLETE ≠ AgentStatus.NEEDS_INPUT := by
  refine ⟨rfl, ?_⟩
  decide

/-- C2 amended: for every response with no actionable computer_call and no
message items but at least one orphaned safety check, the loop does return
early with the checks, but the controller classifies the turn as
`COMPLETE` (with `needs_input` left unchanged), not `NEEDS_INPUT`. -/
theorem orphaned_checks_amended
    (d : Desktop) (fuel : Nat) (w : World) (s : AgentState) (tr : List EnvEvent)
    (resp : Response) (sc : SafetyCheck) (scs : List SafetyCheck)
    (hc : computerCallsOf resp = [])
    (hm : messagesOf resp = [])
    (hs : allSafetyChecksOf resp = sc :: scs) :
    process_response d (fuel + 1) w s tr resp =
      some ⟨AgentStatus.COMPLETE, AgentData.resp resp,
            { s with current_response := some resp }, w, tr⟩ := by
  simp [process_response, computer_use_loop, process_after_call, orNone, hc, hm, hs]

/-- C2 amended, witness at the concrete orphaned-check response. -/
theorem orphaned_checks_amended_witness :
    computerCallsOf respOrphan = [] ∧
    messagesOf respOrphan = [] ∧
    allSafetyChecksOf respOrphan = check1 :: [] ∧
    process_response d0 1 wOrphan sInit [] respOrphan =
      some ⟨AgentStatus.COMPLETE, AgentData.resp respOrphan,
            { sInit with current_response := some respOrphan }, wOrphan, []⟩ :=
  ⟨rfl, rfl, rfl,
   orphaned_checks_amended d0 0 wOrphan sInit [] respOrphan check1 [] rfl rfl rfl⟩

/-- C3 counterexample: a brand-new command does not reset the conversation
history.  On a concrete agent whose state still holds one prior response,
a brand-new command whose first response is Terminal returns `COMPLETE`
with `response_history` of length 2 — not exactly 1 as the claim states. -/
theorem new_command_history_counterexample :
    (agent_action 1 wT sPrior (some "new command") false).map
        (fun r => (r.status, r.state.response_history.length)) =
      some (AgentStatus.COMPLETE, 2) ∧
    (2 : Nat) ≠ 1 := by
  refine ⟨rfl, ?_⟩
  decide

/-- C3 amended: starting a brand-new command resets only the pending
fields (`pending_call`, `pending_safety_checks`, `needs_input`) — the
histories are kept.  For any prior agent state (with a desktop bound and
no input awaited), a brand-new command whose first response is Terminal
returns `(COMPLETE, final response)` with `pending_call` unset,
`needs_input` empty, and `response_history` exactly one longer than
before. -/
theorem new_command_terminal_amended
    (fuel : Nat) (w : World) (s : AgentState) (d : Desktop) (t : String)
    (hd : s.desktop = some d)
    (hni : s.needs_input = [])
    (hc : computerCallsOf (w.oracle w.idx) = [])
    (hm : messagesOf (w.oracle w.idx) = [])
    (hs : allSafetyChecksOf (w.oracle w.idx) = []) :
    agent_action (fuel + 1) w s (some t) false =
      some ⟨AgentStatus.COMPLETE, AgentData.resp (w.oracle w.idx),
            { s with pending_call := none, pending_safety_checks := [], needs_input := [],
                     input_history := s.input_history ++ [(⟨"user", t⟩ : InputDict)],
                     response_history := s.response_history ++ [w.oracle w.idx],
                     current_response := some (w.oracle w.idx) },
            ⟨w.oracle, w.idx + 1⟩, []⟩ ∧
    (s.response_history ++ [w.oracle w.idx]).length = s.response_history.length + 1 := by
  constructor
  · simp [agent_action, hd, hni, handle_new_command, World.next, process_response,
          computer_use_loop, process_after_call, hc, hm, hs]
  · simp

/-- C3 amended, witness: on the concrete prior state `sPrior` (one prior
response in history), a new command with an immediately Terminal response
completes with the pending fields empty and the history grown from 1 to 2. -/
theorem new_command_terminal_amended_witness :
    sPrior.needs_input = [] ∧
    agent_action 1 wT sPrior (some "new command") false =
      some ⟨AgentStatus.COMPLETE, AgentData.resp (wT.oracle wT.idx),
            { sPrior with pending_call := none, pending_safety_checks := [], needs_input := [],
                          input_history := sPrior.input_history ++ [(⟨"user", "new command"⟩ : InputDict)],
                          response_history := sPrior.response_history ++ [wT.oracle wT.idx],
                          current_response := some (wT.oracle wT.idx) },
            ⟨wT.oracle, wT.idx + 1⟩, []⟩ ∧
    (sPrior.response_history ++ [wT.oracle wT.idx]).length = sPrior.response_history.length + 1 := by
  refine ⟨rfl, ?_⟩
  exact new_command_terminal_amended 0 wT sPrior d0 "new command" rfl rfl rfl rfl rfl

/-- C4 counterexample: acknowledging safety checks while no pending call
exists is not always an ERROR — if `input_text` is also supplied, the code
falls through to starting a brand-new conversation.  On a concrete fresh
agent (no pending call) with `acknowledged_safety_checks` set and input
text provided, the result status is `COMPLETE`, not `ERROR`. -/
theorem ack_without_pending_counterexample :
    sInit.pending_call = none ∧
    (agent_action 1 wT sInit (some "hello") true).map (fun r => r.status) =
      some AgentStatus.COMPLETE ∧
    AgentStatus.COMPLETE ≠ AgentStatus.ERROR := by
  refine ⟨rfl, rfl, ?_⟩
  decide

/-- C4 amended: invoking `action` with `acknowledged_safety_checks` set
while no pending call exists and with no input text yields status `ERROR`
with a descriptive message, and the state is unchanged except for the
recorded error — in particular `pending_call` and `pending_safety_checks`
are untouched, so the caller may retry. -/
theorem ack_without_pending_error
    (fuel : Nat) (w : World) (s : AgentState) (d : Desktop)
    (hd : s.desktop = some d) (hpc : s.pending_call = none) :
    agent_action fuel w s none true =
      some ⟨AgentStatus.ERROR, AgentData.err noActionMsg,
            { s with error := some noActionMsg }, w, []⟩ ∧
    ({ s with error := some noActionMsg }).pending_call = s.pending_call ∧
    ({ s with error := some noActionMsg }).pending_safety_checks = s.pending_safety_checks := by
  refine ⟨?_, rfl, rfl⟩
  simp [agent_action, hd, hpc]

/-- C4 amended, witness at the concrete fresh agent. -/
theorem ack_without_pending_error_witness :
    sInit.pending_call = none ∧
    agent_action 1 wT sInit none true =
      some ⟨AgentStatus.ERROR, AgentData.err noActionMsg,
            { sInit with error := some noActionMsg }, wT, []⟩ := by
  refine ⟨rfl, ?_⟩
  exact (ack_without_pending_error 1 wT sInit d0 rfl rfl).1

/-- C5: in this source tree the legacy entry point never translates
anything back into the old dict shape.  At the concrete failing input — a
fresh agent, legacy `input = "open file"`, the model proposing one call
with one safety check — the new entry point invoked directly returns
`NEEDS_SAFETY_CHECK` with the checks and the call, but `action_legacy`
raises `TypeError` for the forwarded keyword `ignore_safety_and_input`
(the delegation at desktop.py:619-629 versus the src `Agent.action`
signature at agent.py:263) before the old-style dict — in particular
before the dict tuple-unpack at desktop.py:534 — is ever built. -/
theorem action_legacy_raises_typeerror :
    action_legacy 1 wSC sInit (some "open file") none none none =
      PyResult.typeError (unexpectedKwargMsg "ignore_safety_and_input") ∧
    (agent_action 1 wSC sInit (some "open file") false).map (fun r => r.data) =
      some (AgentData.scDict [check1] callItem1) :=
  ⟨rfl, rfl⟩

/-- The three structural invariants of the conversation state: at most one
pending call (enforced by the `Option`), checks only while a call is
pending, and an input request only while no call is pending. -/
def Inv (s : AgentState) : Prop :=
  (s.pending_call = none ∨ ∃ c, s.pending_call = some c) ∧
  (s.pending_safety_checks ≠ [] → s.pending_call ≠ none) ∧
  (s.needs_input ≠ [] → s.pending_call = none)

/-- The COMPLETE / NEEDS_INPUT tail of `_process_response` establishes the
invariants whenever the incoming state has no pending call and no pending
checks. -/
theorem process_after_call_inv (lr : LoopRes) (s1 : AgentState) (w : World)
    (tr : List EnvEvent) (r : ActionResult)
    (hpc : s1.pending_call = none) (hsc : s1.pending_safety_checks = [])
    (h : process_after_call lr s1 w tr = some r) : Inv r.state := by
  unfold process_after_call at h
  split at h
  · split at h
    · obtain rfl := Option.some.inj h
      exact ⟨Or.inl hpc, fun hne => absurd hsc hne, fun _ => hpc⟩
    · obtain rfl := Option.some.inj h
      exact ⟨Or.inl hpc, fun hne => absurd hsc hne, fun _ => hpc⟩
  · obtain rfl := Option.some.inj h
    exact ⟨Or.inl hpc, fun hne => absurd hsc hne, fun _ => hpc⟩

/-- `_process_response` establishes the invariants whenever the incoming
state has no pending call, no pending checks, and no pending input
request (which is how all three `action` paths reach it). -/
theorem process_response_inv (d : Desktop) (fuel : Nat) (w : World) (s : AgentState)
    (tr : List EnvEvent) (resp : Response) (r : ActionResult)
    (hpc : s.pending_call = none) (hsc : s.pending_safety_checks = [])
    (hni : s.needs_input = [])
    (h : process_response d fuel w s tr resp = some r) : Inv r.state := by
  unfold process_response at h
  dsimp only at h
  split at h
  · exact Option.noConfusion h
  · rename_i lr w' tr' heq
    split at h
    · rename_i pc checks hpcall hchecks
      split at h
      · exact process_after_call_inv _ _ _ _ _ (by exact hpc) (by exact hsc) h
      · obtain rfl := Option.some.inj h
        exact ⟨Or.inr ⟨pc, rfl⟩, fun _ => Option.some_ne_none pc, fun hne => absurd hni hne⟩
    · exact process_after_call_inv _ _ _ _ _ (by exact hpc) (by exact hsc) h
    · exact process_after_call_inv _ _ _ _ _ (by exact hpc) (by exact hsc) h

/-- C6: every completed `action` invocation preserves the three structural
invariants — at most one pending call; `pending_safety_checks` nonempty
only while `pending_call` is set; `needs_input` nonempty only while
`pending_call` is unset.  (A fresh agent satisfies them, so every
reachable state does.) -/
theorem agent_action_preserves_invariants
    (fuel : Nat) (w : World) (s : AgentState) (input_text : Option String)
    (ack : Bool) (r : ActionResult)
    (hInv : Inv s) (h : agent_action fuel w s input_text ack = some r) :
    Inv r.state := by
  obtain ⟨h1, h2, h3⟩ := hInv
  unfold agent_action at h
  split at h
  · obtain rfl := Option.some.inj h
    exact ⟨h1, h2, h3⟩
  · rename_i d hd
    split at h
    · rename_i hack
      have hpcsome : s.pending_call.isSome = true := by
        rcases Bool.and_eq_true_iff.mp hack with ⟨_, hb⟩
        exact hb
      have hni : s.needs_input = [] := by
        by_contra hne
        rw [h3 hne] at hpcsome
        exact Bool.noConfusion hpcsome
      unfold handle_acknowledged_safety_checks at h
      dsimp only at h
      split at h
      · split at h
        · obtain rfl := Option.some.inj h
          exact ⟨h1, h2, h3⟩
        · exact process_response_inv _ _ _ _ _ _ _ (by exact rfl) (by exact rfl) (by exact hni) h
      · obtain rfl := Option.some.inj h
        exact ⟨h1, h2, h3⟩
    · rename_i hack
      split at h
      · rename_i t
        split at h
        · unfold handle_new_command at h
          dsimp only at h
          exact process_response_inv _ _ _ _ _ _ _ (by exact rfl) (by exact rfl) (by exact rfl) h
        · rename_i hniF
          have hpcn : s.pending_call = none := by
            apply h3
            intro hq
            rw [hq] at hniF
            exact hniF rfl
          have hscn : s.pending_safety_checks = [] := by
            by_contra hq
            exact (h2 hq) hpcn
          unfold handle_user_input at h
          dsimp only at h
          split at h
          · obtain rfl := Option.some.inj h
            exact ⟨h1, h2, h3⟩
          · exact process_response_inv _ _ _ _ _ _ _ (by exact hpcn) (by exact hscn) (by exact rfl) h
      · obtain rfl := Option.some.inj h
        exact ⟨h1, h2, h3⟩

/-- The concrete outcome of one new-command invocation on a fresh agent
(used only by the invariant witness). -/
def c6run : ActionResult :=
  (agent_action 1 wT sInit (some "go") false).getD
    ⟨AgentStatus.ERROR, AgentData.err "", sInit, wT, []⟩

/-- C6 witness: a fresh agent satisfies the invariants, and so does the
state after a concrete completed invocation. -/
theorem agent_action_preserves_invariants_witness :
    Inv sInit ∧ Inv c6run.state :=
  ⟨⟨Or.inl rfl, fun hne => absurd rfl hne, fun _ => rfl⟩,
   agent_action_preserves_invariants 1 wT sInit (some "go") false c6run
     ⟨Or.inl rfl, fun hne => absurd rfl hne, fun _ => rfl⟩ rfl⟩

/-- Writing through a freshly allocated address never changes a
pre-existing cell. -/
theorem readListObj_write_fresh (h : PyListHeap) (c v : List Nat) (r : Nat)
    (hr : r < h.length) :
    readListObj (writeListObj (h ++ [c]) h.length v) r = readListObj h r := by
  unfold readListObj writeListObj
  rw [List.getD_eq_getElem?_getD, List.getD_eq_getElem?_getD]
  rw [List.getElem?_set_ne (by omega)]
  rw [List.getElem?_append_left hr]

/-- C10: each introspection accessor (`response_history`, `input_history`,
`pending_safety_checks`, `needs_input`) returns a copy at a freshly
allocated address, so arbitrarily mutating the returned list object leaves
every pre-existing list object of the agent (any valid address `a` of the
original heap, in particular the four internal refs) unchanged: reading
state is effect-free and caller-side mutation never changes the agent's
subsequent behaviour or later accessor results. -/
theorem accessor_copies_isolate (h : PyListHeap) (ag : AgentListRefs)
    (a : Nat) (v : List Nat) (ha : a < h.length) :
    readListObj (writeListObj (response_history_read h ag).2
        (response_history_read h ag).1 v) a = readListObj h a ∧
    readListObj (writeListObj (input_history_read h ag).2
        (input_history_read h ag).1 v) a = readListObj h a ∧
    readListObj (writeListObj (pending_safety_checks_read h ag).2
        (pending_safety_checks_read h ag).1 v) a = readListObj h a ∧
    readListObj (writeListObj (needs_input_read h ag).2
        (needs_input_read h ag).1 v) a = readListObj h a := by
  refine ⟨?_, ?_, ?_, ?_⟩
  · exact readListObj_write_fresh h _ v a ha
  · exact readListObj_write_fresh h _ v a ha
  · unfold pending_safety_checks_read
    split
    · exact readListObj_write_fresh h _ v a ha
    · exact readListObj_write_fresh h _ v a ha
  · unfold needs_input_read
    split
    · exact readListObj_write_fresh h _ v a ha
    · exact readListObj_write_fresh h _ v a ha

/-- C10 witness: a concrete four-cell heap, mutating the copy returned by
each accessor, observed at internal address 0. -/
theorem accessor_copies_isolate_witness :
    (0 : Nat) < ([[1], [2], [3], [4]] : PyListHeap).length ∧
    (readListObj (writeListObj (response_history_read [[1], [2], [3], [4]] ⟨0, 1, 2, 3⟩).2
        (response_history_read [[1], [2], [3], [4]] ⟨0, 1, 2, 3⟩).1 [9]) 0 =
      readListObj [[1], [2], [3], [4]] 0 ∧
    readListObj (writeListObj (input_history_read [[1], [2], [3], [4]] ⟨0, 1, 2, 3⟩).2
        (input_history_read [[1], [2], [3], [4]] ⟨0, 1, 2, 3⟩).1 [9]) 0 =
      readListObj [[1], [2], [3], [4]] 0 ∧
    readListObj (writeListObj (pending_safety_checks_read [[1], [2], [3], [4]] ⟨0, 1, 2, 3⟩).2
        (pending_safety_checks_read [[1], [2], [3], [4]] ⟨0, 1, 2, 3⟩).1 [9]) 0 =
      readListObj [[1], [2], [3], [4]] 0 ∧
    readListObj (writeListObj (needs_input_read [[1], [2], [3], [4]] ⟨0, 1, 2, 3⟩).2
        (needs_input_read [[1], [2], [3], [4]] ⟨0, 1, 2, 3⟩).1 [9]) 0 =
      readListObj [[1], [2], [3], [4]] 0) :=
  ⟨by decide,
   accessor_copies_isolate [[1], [2], [3], [4]] ⟨0, 1, 2, 3⟩ 0 [9] (by decide)⟩

end Spongecake
